import Mathlib

/-!
Shallow embedding of the Fitness Studio Booking API core
(app/utils/time.py, app/models.py, app/schemas.py,
app/routers/classes.py, app/routers/bookings.py, app/main.py).

Datetimes are modelled as a civil wall-clock reading (in minutes) plus an
optional fixed UTC offset in minutes (Python `tzinfo`); `none` means naive.
Python compares two timezone-aware datetimes by their UTC instant.
The relational store is modelled as lists of rows with id counters, and each
route handler as a pure function threading the store, returning the
(possibly updated) store together with the HTTP result.
-/

namespace FitnessStudio

/-- Python `datetime` value: civil wall-clock reading in minutes together with
an optional UTC offset in minutes (`tzinfo`); `none` models a naive datetime. -/
structure PyDatetime where
  wall : Int
  tz : Option Int
deriving DecidableEq, Repr

/-- Offset of `ZoneInfo("Asia/Kolkata")` (IST = UTC+05:30) in minutes,
from `IST` in app/utils/time.py. -/
def istOffset : Int := 330

/-- UTC instant of a timezone-aware datetime: wall reading minus offset.
Python aware-datetime comparison compares these instants. (On a naive
datetime Python would raise; the code only compares aware values, so the
`getD 0` default is never exercised by the embedded operations.) -/
def instant (dt : PyDatetime) : Int :=
  dt.wall - dt.tz.getD 0

/-- app/utils/time.py `normalize_to_ist`: a naive datetime keeps its civil
reading and gets the IST tzinfo attached (`dt.replace(tzinfo=IST)`); an aware
datetime is converted to IST preserving its instant (`dt.astimezone(IST)`). -/
def normalize_to_ist (dt : PyDatetime) : PyDatetime :=
  match dt.tz with
  | none => { wall := dt.wall, tz := some istOffset }
  | some off => { wall := dt.wall - off + istOffset, tz := some istOffset }

/-- app/utils/time.py `is_past_in_ist`: `dt < current`, the strict
aware-datetime comparison against the current IST time (passed explicitly
here in place of the `now_ist()` call). -/
def is_past_in_ist (dt current : PyDatetime) : Bool :=
  decide (instant dt < instant current)

/-- app/models.py `FitnessClass` row (columns used by the routers). -/
structure FitnessClass where
  id : Nat
  name : String
  date_time : PyDatetime
  instructor : String
  available_slots : Int
deriving DecidableEq, Repr

/-- app/models.py `Booking` row (columns used by the routers). -/
structure Booking where
  id : Nat
  user_id : Nat
  class_id : Nat
  client_name : String
  client_email : String
  created_at : PyDatetime
deriving DecidableEq, Repr

/-- The relational store: the `classes` and `bookings` tables, with the
next primary-key value each table will generate on insert. -/
structure Store where
  classes : List FitnessClass
  bookings : List Booking
  nextClassId : Nat
  nextBookingId : Nat
deriving DecidableEq, Repr

/-- The empty store a fresh database starts from. -/
def Store.empty : Store :=
  { classes := [], bookings := [], nextClassId := 1, nextBookingId := 1 }

/-- app/schemas.py `ClassCreate` request body. -/
structure ClassCreate where
  name : String
  date_time : PyDatetime
  instructor : String
  available_slots : Int
deriving DecidableEq, Repr

/-- app/schemas.py `ClassCreate` field validation: `name` bounded 1..150,
`instructor` bounded 1..100, `available_slots` bounded `ge=1, le=100`.
Requests failing this are rejected (422) before reaching the handler. -/
def ClassCreate.valid (c : ClassCreate) : Bool :=
  decide (1 ≤ c.name.length) && decide (c.name.length ≤ 150) &&
  decide (1 ≤ c.instructor.length) && decide (c.instructor.length ≤ 100) &&
  decide (1 ≤ c.available_slots) && decide (c.available_slots ≤ 100)

/-- app/schemas.py `BookingCreate` request body. -/
structure BookingCreate where
  class_id : Nat
  client_name : String
  client_email : String
deriving DecidableEq, Repr

/-- Business-rule failures of `create_class` (raised as HTTPException 400). -/
inductive ClassError where
  | PastSchedule
deriving DecidableEq, Repr

/-- Business-rule failures of `book_class`, in the order the handler checks
them: class missing, class in the past, no slots left, duplicate booking. -/
inductive BookError where
  | ClassNotFound
  | PastClass
  | NoSlots
  | AlreadyBooked
deriving DecidableEq, Repr

/-- HTTP status code each `book_class` failure is raised with in
app/routers/bookings.py. -/
def BookError.statusCode : BookError → Nat
  | .ClassNotFound => 404
  | .PastClass => 400
  | .NoSlots => 409
  | .AlreadyBooked => 409

/-- The query `db.query(FitnessClass).filter(FitnessClass.id == cid).first()`. -/
def find_class (db : Store) (cid : Nat) : Option FitnessClass :=
  db.classes.find? (fun k => k.id == cid)

/-- The query `db.query(Booking).filter(Booking.user_id == uid,
Booking.class_id == cid).first()`. -/
def find_booking (db : Store) (uid cid : Nat) : Option Booking :=
  db.bookings.find? (fun b => b.user_id == uid && b.class_id == cid)

/-- app/routers/classes.py `create_class`: normalize the scheduled time to
IST, reject 400 if it is past, otherwise insert one class row with
`available_slots` taken from the request and return it. The store is
threaded explicitly; on failure it is returned unchanged (the handler
raises before touching the session). -/
def create_class (db : Store) (class_in : ClassCreate) (now : PyDatetime) :
    Store × Except ClassError FitnessClass :=
  let dt_ist := normalize_to_ist class_in.date_time
  if is_past_in_ist dt_ist now then
    (db, .error .PastSchedule)
  else
    let item : FitnessClass :=
      { id := db.nextClassId
        name := class_in.name
        date_time := dt_ist
        instructor := class_in.instructor
        available_slots := class_in.available_slots }
    ({ db with
        classes := db.classes ++ [item]
        nextClassId := db.nextClassId + 1 },
     .ok item)

/-- app/routers/bookings.py `book_class`: look up the class (404 if absent),
reject 400 if `normalize_to_ist(klass.date_time) < now_ist()`, reject 409 if
`available_slots <= 0`, reject 409 if a `(user_id, class_id)` booking already
exists; otherwise decrement the class's `available_slots`, insert one booking
row (its `created_at` generated at commit time is modelled as `now`), commit,
and return the created booking. On every failure path the handler raises
before any mutation, so the store is returned unchanged. -/
def book_class (db : Store) (user_id : Nat) (booking_in : BookingCreate)
    (now : PyDatetime) : Store × Except BookError Booking :=
  match find_class db booking_in.class_id with
  | none => (db, .error .ClassNotFound)
  | some klass =>
    if instant (normalize_to_ist klass.date_time) < instant now then
      (db, .error .PastClass)
    else if klass.available_slots ≤ 0 then
      (db, .error .NoSlots)
    else if (find_booking db user_id booking_in.class_id).isSome then
      (db, .error .AlreadyBooked)
    else
      let booking : Booking :=
        { id := db.nextBookingId
          user_id := user_id
          class_id := booking_in.class_id
          client_name := booking_in.client_name
          client_email := booking_in.client_email
          created_at := now }
      ({ db with
          classes := db.classes.map (fun k =>
            if k.id = klass.id then
              { k with available_slots := k.available_slots - 1 }
            else k)
          bookings := db.bookings ++ [booking]
          nextBookingId := db.nextBookingId + 1 },
       .ok booking)

/-- An HTTP route: method, path, and the success status code it is declared
with. -/
structure Route where
  method : String
  path : String
  success_status : Nat
deriving DecidableEq, Repr

/-- Routes declared on the auth router (app/routers/auth.py). -/
def auth_router_routes : List Route :=
  [⟨"POST", "/signup", 201⟩, ⟨"POST", "/login", 200⟩]

/-- Routes declared on the classes router (app/routers/classes.py, with its
`/classes` route prefix). -/
def classes_router_routes : List Route :=
  [⟨"POST", "/classes", 201⟩]

/-- Routes declared on the bookings router (app/routers/bookings.py):
`POST /book` with status 201 and `GET /bookings` with status 200. -/
def bookings_router_routes : List Route :=
  [⟨"POST", "/book", 201⟩, ⟨"GET", "/bookings", 200⟩]

/-- Routes actually registered on the FastAPI app in app/main.py: the
health endpoint plus `app.include_router(auth.router)` and
`app.include_router(classes.router)`. The bookings router is never
included. -/
def app_routes : List Route :=
  ⟨"GET", "/health", 200⟩ :: auth_router_routes ++ classes_router_routes

/-! Invariant machinery: stores reachable from an empty database through the
two mutating handlers, and the structural invariant they maintain. -/

/-- Structural invariant of the store: slot counts are non-negative, class
primary keys are below the generator and pairwise distinct, and the
`uq_booking_user_class` unique constraint holds: no two booking rows share
the same `(user_id, class_id)` pair. -/
structure StoreInv (db : Store) : Prop where
  slots_nonneg : ∀ k ∈ db.classes, 0 ≤ k.available_slots
  class_ids_lt : ∀ k ∈ db.classes, k.id < db.nextClassId
  class_ids_nodup : (db.classes.map FitnessClass.id).Nodup
  booking_pairs_nodup :
    (db.bookings.map (fun bb => (bb.user_id, bb.class_id))).Nodup

/-- Stores reachable from the empty database by any sequence of
`create_class` calls on schema-validated bodies and `book_class` calls
(each constructor covers both the success and the failure outcome, since a
failing call returns the store unchanged). -/
inductive Reachable : Store → Prop where
  | init : Reachable Store.empty
  | createClass {db : Store} {c : ClassCreate} {now : PyDatetime} :
      Reachable db → c.valid = true → Reachable (create_class db c now).1
  | book {db : Store} {uid : Nat} {b : BookingCreate} {now : PyDatetime} :
      Reachable db → Reachable (book_class db uid b now).1

/-! Concrete fixtures: a small database history used by the witness and
counterexample theorems. Wall times are minutes; `w_now` is 1000 IST. -/

/-- Fixture: the current IST time used below. -/
def w_now : PyDatetime := ⟨1000, some istOffset⟩

/-- Fixture: a valid class-creation body for a future class (naive time). -/
def w_classIn : ClassCreate := ⟨"Yoga", ⟨2000, none⟩, "Asha", 2⟩

/-- Fixture: store after creating the Yoga class (capacity 2). -/
def w_s1 : Store := (create_class Store.empty w_classIn w_now).1

/-- Fixture: the Yoga class row as created. -/
def w_k1 : FitnessClass := ⟨1, "Yoga", ⟨2000, some istOffset⟩, "Asha", 2⟩

/-- Fixture: a booking body for class 1. -/
def w_bookIn : BookingCreate := ⟨1, "Parth", "parth@example.com"⟩

/-- Fixture: the booking row created by user 7 for class 1. -/
def w_bk : Booking := ⟨1, 7, 1, "Parth", "parth@example.com", w_now⟩

/-- Fixture: store after user 7 books the Yoga class. -/
def w_s2 : Store := (book_class w_s1 7 w_bookIn w_now).1

/-- Fixture: the Yoga class row after one booking (one slot left). -/
def w_k2 : FitnessClass := ⟨1, "Yoga", ⟨2000, some istOffset⟩, "Asha", 1⟩

/-- Fixture: a capacity-1 class body for the duplicate-retry scenario. -/
def cex_classIn : ClassCreate := ⟨"Spin", ⟨2000, none⟩, "Ravi", 1⟩

/-- Fixture: store after creating the capacity-1 Spin class. -/
def cex_s1 : Store := (create_class Store.empty cex_classIn w_now).1

/-- Fixture: store after user 7 takes the last Spin slot. -/
def cex_s2 : Store := (book_class cex_s1 7 w_bookIn w_now).1

/-- Fixture: the Spin class row once full. -/
def cex_k0 : FitnessClass := ⟨1, "Spin", ⟨2000, some istOffset⟩, "Ravi", 0⟩

/-- A successful class lookup returns a row whose id matches the query. -/
lemma find_class_id {db : Store} {cid : Nat} {k : FitnessClass}
    (h : find_class db cid = some k) : k.id = cid := by
  have hp := List.find?_some h
  simpa using hp

/-- A successful class lookup returns a member of the classes table. -/
lemma find_class_mem {db : Store} {cid : Nat} {k : FitnessClass}
    (h : find_class db cid = some k) : k ∈ db.classes :=
  List.mem_of_find?_eq_some h

/-- Unfolding of `book_class` when the class lookup fails. -/
lemma book_class_none {db : Store} {uid : Nat} {b : BookingCreate}
    {now : PyDatetime} (h : find_class db b.class_id = none) :
    book_class db uid b now = (db, .error .ClassNotFound) := by
  unfold book_class
  rw [h]

/-- Unfolding of `book_class` when the class lookup succeeds: the three
guards are checked in order and the success branch performs the decrement
and the insert. -/
lemma book_class_some {db : Store} {uid : Nat} {b : BookingCreate}
    {now : PyDatetime} {k : FitnessClass}
    (h : find_class db b.class_id = some k) :
    book_class db uid b now =
      (if instant (normalize_to_ist k.date_time) < instant now then
        (db, .error .PastClass)
      else if k.available_slots ≤ 0 then
        (db, .error .NoSlots)
      else if (find_booking db uid b.class_id).isSome then
        (db, .error .AlreadyBooked)
      else
        ({ db with
            classes := db.classes.map (fun k2 =>
              if k2.id = k.id then
                { k2 with available_slots := k2.available_slots - 1 }
              else k2)
            bookings := db.bookings ++
              [⟨db.nextBookingId, uid, b.class_id, b.client_name,
                b.client_email, now⟩]
            nextBookingId := db.nextBookingId + 1 },
         .ok ⟨db.nextBookingId, uid, b.class_id, b.client_name,
              b.client_email, now⟩)) := by
  unfold book_class
  rw [h]

/-- The schema bounds extracted from a validated `ClassCreate` body. -/
lemma ClassCreate.valid_bounds {c : ClassCreate} (hv : c.valid = true) :
    1 ≤ c.available_slots ∧ c.available_slots ≤ 100 := by
  simp only [ClassCreate.valid, Bool.and_eq_true, decide_eq_true_eq] at hv
  exact ⟨hv.1.2, hv.2⟩

/-- `create_class` preserves the structural store invariant. -/
lemma create_preserves_inv {db : Store} {c : ClassCreate} {now : PyDatetime}
    (h : StoreInv db) (hv : c.valid = true) :
    StoreInv (create_class db c now).1 := by
  unfold create_class
  dsimp only
  split_ifs with hpast
  · exact h
  · refine ⟨?_, ?_, ?_, ?_⟩
    · intro k hk
      rcases List.mem_append.1 hk with hk | hk
      · exact h.slots_nonneg k hk
      · have hk' : k = ⟨db.nextClassId, c.name, normalize_to_ist c.date_time,
            c.instructor, c.available_slots⟩ := by simpa using hk
        subst hk'
        have := (ClassCreate.valid_bounds hv).1
        dsimp only
        omega
    · intro k hk
      rcases List.mem_append.1 hk with hk | hk
      · exact Nat.lt_trans (h.class_ids_lt k hk) (Nat.lt_succ_self _)
      · have hk' : k = ⟨db.nextClassId, c.name, normalize_to_ist c.date_time,
            c.instructor, c.available_slots⟩ := by simpa using hk
        subst hk'
        exact Nat.lt_succ_self _
    · rw [List.map_append, List.nodup_append]
      refine ⟨h.class_ids_nodup, by simp, ?_⟩
      intro a ha hb
      rcases List.mem_map.1 ha with ⟨k, hk, rfl⟩
      have hlt := h.class_ids_lt k hk
      have hb' : k.id = db.nextClassId := by simpa using hb
      omega
    · exact h.booking_pairs_nodup

/-- `book_class` preserves the structural store invariant. -/
lemma book_preserves_inv {db : Store} {uid : Nat} {b : BookingCreate}
    {now : PyDatetime} (h : StoreInv db) :
    StoreInv (book_class db uid b now).1 := by
  cases hfc : find_class db b.class_id with
  | none => rw [book_class_none hfc]; exact h
  | some k =>
    have hmem : k ∈ db.classes := find_class_mem hfc
    rw [book_class_some hfc]
    split_ifs with hpast hslots hdup
    · exact h
    · exact h
    · exact h
    · refine ⟨?_, ?_, ?_, ?_⟩
      · intro k2 hk2
        rcases List.mem_map.1 hk2 with ⟨k1, hk1, rfl⟩
        by_cases hid : k1.id = k.id
        · have hk1k : k1 = k :=
            List.inj_on_of_nodup_map h.class_ids_nodup hk1 hmem hid
          subst hk1k
          rw [if_pos rfl]
          dsimp only
          omega
        · simp only [if_neg hid]
          exact h.slots_nonneg k1 hk1
      · intro k2 hk2
        rcases List.mem_map.1 hk2 with ⟨k1, hk1, rfl⟩
        have hid : (if k1.id = k.id then
            { k1 with available_slots := k1.available_slots - 1 }
          else k1).id = k1.id := by
          split <;> rfl
        rw [hid]
        exact h.class_ids_lt k1 hk1
      · rw [List.map_map]
        have hcong : db.classes.map (FitnessClass.id ∘ (fun k2 =>
            if k2.id = k.id then
              { k2 with available_slots := k2.available_slots - 1 }
            else k2)) = db.classes.map FitnessClass.id := by
          refine List.map_congr_left ?_
          intro a _
          by_cases hid : a.id = k.id <;> simp [Function.comp, hid]
        rw [hcong]
        exact h.class_ids_nodup
      · rw [List.map_append, List.nodup_append]
        refine ⟨h.booking_pairs_nodup, by simp, ?_⟩
        intro p hp hps
        have hps' : p = (uid, b.class_id) := by simpa using hps
        subst hps'
        rcases List.mem_map.1 hp with ⟨bb, hbb, hpair⟩
        have hnone : find_booking db uid b.class_id = none := by
          cases hres : find_booking db uid b.class_id with
          | none => rfl
          | some x => rw [hres] at hdup; simp at hdup
        have hall := List.find?_eq_none.1 hnone bb hbb
        have h1 : bb.user_id = uid := congrArg Prod.fst hpair
        have h2 : bb.class_id = b.class_id := congrArg Prod.snd hpair
        simp [h1, h2] at hall

/-- Every reachable store satisfies the structural invariant. -/
lemma reachable_inv {db : Store} (h : Reachable db) : StoreInv db := by
  induction h with
  | init => exact ⟨by simp [Store.empty], by simp [Store.empty],
      by simp [Store.empty], by simp [Store.empty]⟩
  | createClass _ hv ih => exact create_preserves_inv ih hv
  | book _ ih => exact book_preserves_inv ih

/-- The store `w_s1` is reachable. -/
lemma reach_w_s1 : Reachable w_s1 :=
  Reachable.createClass Reachable.init (by decide)

/-- The store `w_s2` is reachable. -/
lemma reach_w_s2 : Reachable w_s2 :=
  Reachable.book reach_w_s1

/-! Claim theorems. -/

/-- C6: `normalize_to_ist` maps every timestamp to an IST timestamp by the
naive-means-local rule: a naive input keeps its civil reading and only gets
the IST zone attached (no clock shift), and an offset-carrying input is
converted to IST preserving its instant. -/
theorem C6_normalize_naive_local_aware_instant :
    (∀ t : PyDatetime, t.tz = none →
      normalize_to_ist t = { wall := t.wall, tz := some istOffset }) ∧
    (∀ (t : PyDatetime) (off : Int), t.tz = some off →
      (normalize_to_ist t).tz = some istOffset ∧
        instant (normalize_to_ist t) = instant t) := by
  constructor
  · intro t ht
    rcases t with ⟨wall, tz⟩
    cases ht
    rfl
  · intro t off ht
    rcases t with ⟨wall, tz⟩
    cases ht
    refine ⟨rfl, ?_⟩
    simp [normalize_to_ist, instant]

/-- Witness for C6 at a naive and at a UTC+1h timestamp. -/
theorem C6_normalize_witness :
    normalize_to_ist ⟨100, none⟩ = { wall := (100 : Int), tz := some istOffset } ∧
    ((normalize_to_ist ⟨100, some 60⟩).tz = some istOffset ∧
      instant (normalize_to_ist ⟨100, some 60⟩) = instant ⟨100, some 60⟩) :=
  ⟨C6_normalize_naive_local_aware_instant.1 ⟨100, none⟩ rfl,
   C6_normalize_naive_local_aware_instant.2 ⟨100, some 60⟩ 60 rfl⟩

/-- C7: the past check is true exactly when the normalized timestamp is
strictly earlier than the current IST time; a timestamp whose instant
equals "now" is not past, and neither the class-creation check nor the
booking past-check rejects it. -/
theorem C7_is_past_strict_comparison :
    (∀ t now : PyDatetime, is_past_in_ist (normalize_to_ist t) now = true ↔
      instant (normalize_to_ist t) < instant now) ∧
    (∀ t now : PyDatetime, instant (normalize_to_ist t) = instant now →
      is_past_in_ist (normalize_to_ist t) now = false) ∧
    (∀ (db : Store) (c : ClassCreate) (now : PyDatetime),
      instant (normalize_to_ist c.date_time) = instant now →
      (create_class db c now).2 ≠ Except.error ClassError.PastSchedule) ∧
    (∀ (db : Store) (uid : Nat) (b : BookingCreate) (now : PyDatetime)
      (k : FitnessClass), find_class db b.class_id = some k →
      instant (normalize_to_ist k.date_time) = instant now →
      (book_class db uid b now).2 ≠ Except.error BookError.PastClass) := by
  refine ⟨?_, ?_, ?_, ?_⟩
  · intro t now
    simp [is_past_in_ist]
  · intro t now h
    simp [is_past_in_ist, h]
  · intro db c now h
    have hfalse : is_past_in_ist (normalize_to_ist c.date_time) now = false := by
      simp [is_past_in_ist, h]
    unfold create_class
    dsimp only
    rw [hfalse]
    simp
  · intro db uid b now k hfc h
    rw [book_class_some hfc]
    have hnp : ¬ instant (normalize_to_ist k.date_time) < instant now := by
      omega
    rw [if_neg hnp]
    split_ifs <;> simp

/-- Witness for C7: a class whose normalized time has exactly the current
instant is rejected by neither check. -/
theorem C7_is_past_witness :
    is_past_in_ist (normalize_to_ist ⟨500, none⟩) ⟨500, some istOffset⟩ = false ∧
    (create_class Store.empty ⟨"Zumba", ⟨500, none⟩, "Maya", 3⟩
        ⟨500, some istOffset⟩).2 ≠ Except.error ClassError.PastSchedule ∧
    (book_class w_s1 7 w_bookIn ⟨2000, some istOffset⟩).2 ≠
      Except.error BookError.PastClass :=
  ⟨C7_is_past_strict_comparison.2.1 ⟨500, none⟩ ⟨500, some istOffset⟩ (by decide),
   C7_is_past_strict_comparison.2.2.1 Store.empty
     ⟨"Zumba", ⟨500, none⟩, "Maya", 3⟩ ⟨500, some istOffset⟩ (by decide),
   C7_is_past_strict_comparison.2.2.2 w_s1 7 w_bookIn ⟨2000, some istOffset⟩
     w_k1 (by decide) (by decide)⟩

/-- C8: `normalize_to_ist` is idempotent on every timestamp, naive or
offset-carrying. -/
theorem C8_normalize_idempotent (t : PyDatetime) :
    normalize_to_ist (normalize_to_ist t) = normalize_to_ist t := by
  rcases t with ⟨wall, tz⟩
  cases tz with
  | none => simp [normalize_to_ist]
  | some off => simp [normalize_to_ist]

/-- C3: `book_class` validates in the fixed order existence, past-check,
capacity, duplicate; a missing class id yields `ClassNotFound` with no
further hypotheses, and each later error is only reachable when every
earlier check passed. -/
theorem C3_validation_order :
    (∀ (db : Store) (uid : Nat) (b : BookingCreate) (now : PyDatetime),
      find_class db b.class_id = none →
      book_class db uid b now = (db, Except.error BookError.ClassNotFound)) ∧
    (∀ (db : Store) (uid : Nat) (b : BookingCreate) (now : PyDatetime)
      (k : FitnessClass), find_class db b.class_id = some k →
      instant (normalize_to_ist k.date_time) < instant now →
      book_class db uid b now = (db, Except.error BookError.PastClass)) ∧
    (∀ (db : Store) (uid : Nat) (b : BookingCreate) (now : PyDatetime)
      (k : FitnessClass), find_class db b.class_id = some k →
      ¬ instant (normalize_to_ist k.date_time) < instant now →
      k.available_slots ≤ 0 →
      book_class db uid b now = (db, Except.error BookError.NoSlots)) ∧
    (∀ (db : Store) (uid : Nat) (b : BookingCreate) (now : PyDatetime)
      (k : FitnessClass), find_class db b.class_id = some k →
      ¬ instant (normalize_to_ist k.date_time) < instant now →
      0 < k.available_slots →
      (find_booking db uid b.class_id).isSome = true →
      book_class db uid b now = (db, Except.error BookError.AlreadyBooked)) := by
  refine ⟨?_, ?_, ?_, ?_⟩
  · intro db uid b now h
    exact book_class_none h
  · intro db uid b now k hfc hpast
    rw [book_class_some hfc, if_pos hpast]
  · intro db uid b now k hfc hpast hslots
    rw [book_class_some hfc, if_neg hpast, if_pos hslots]
  · intro db uid b now k hfc hpast hslots hdup
    rw [book_class_some hfc, if_neg hpast, if_neg (by omega), if_pos hdup]

/-- Witness for C3: each of the four failures observed on a concrete store. -/
theorem C3_validation_order_witness :
    book_class Store.empty 7 w_bookIn w_now =
      (Store.empty, Except.error BookError.ClassNotFound) ∧
    book_class w_s1 7 w_bookIn ⟨3000, some istOffset⟩ =
      (w_s1, Except.error BookError.PastClass) ∧
    book_class cex_s2 8 w_bookIn w_now =
      (cex_s2, Except.error BookError.NoSlots) ∧
    book_class w_s2 7 w_bookIn w_now =
      (w_s2, Except.error BookError.AlreadyBooked) :=
  ⟨C3_validation_order.1 Store.empty 7 w_bookIn w_now (by decide),
   C3_validation_order.2.1 w_s1 7 w_bookIn ⟨3000, some istOffset⟩ w_k1
     (by decide) (by decide),
   C3_validation_order.2.2.1 cex_s2 8 w_bookIn w_now cex_k0
     (by decide) (by decide) (by decide),
   C3_validation_order.2.2.2 w_s2 7 w_bookIn w_now w_k2
     (by decide) (by decide) (by decide) (by decide)⟩

/-- C4: when the class exists, is not past, has a slot free, and the user
has not booked it, `book_class` returns in one step the store with that
class's `available_slots` decremented by exactly 1 and exactly one new
booking row appended, and returns the created booking with its generated id
and timestamp. -/
theorem C4_reserve_success_effects :
    ∀ (db : Store) (uid : Nat) (b : BookingCreate) (now : PyDatetime)
      (k : FitnessClass),
      find_class db b.class_id = some k →
      ¬ instant (normalize_to_ist k.date_time) < instant now →
      0 < k.available_slots →
      find_booking db uid b.class_id = none →
      book_class db uid b now =
        ({ db with
            classes := db.classes.map (fun k2 =>
              if k2.id = k.id then
                { k2 with available_slots := k2.available_slots - 1 }
              else k2)
            bookings := db.bookings ++
              [⟨db.nextBookingId, uid, b.class_id, b.client_name,
                b.client_email, now⟩]
            nextBookingId := db.nextBookingId + 1 },
         Except.ok ⟨db.nextBookingId, uid, b.class_id, b.client_name,
            b.client_email, now⟩) := by
  intro db uid b now k hfc hpast hslots hdup
  rw [book_class_some hfc, if_neg hpast, if_neg (by omega),
    if_neg (by simp [hdup])]

/-- Witness for C4: user 7 books the Yoga class in the fixture store. -/
theorem C4_reserve_success_witness :
    book_class w_s1 7 w_bookIn w_now =
      ({ w_s1 with
          classes := w_s1.classes.map (fun k2 =>
            if k2.id = w_k1.id then
              { k2 with available_slots := k2.available_slots - 1 }
            else k2)
          bookings := w_s1.bookings ++
            [⟨w_s1.nextBookingId, 7, w_bookIn.class_id, w_bookIn.client_name,
              w_bookIn.client_email, w_now⟩]
          nextBookingId := w_s1.nextBookingId + 1 },
       Except.ok ⟨w_s1.nextBookingId, 7, w_bookIn.class_id,
          w_bookIn.client_name, w_bookIn.client_email, w_now⟩) :=
  C4_reserve_success_effects w_s1 7 w_bookIn w_now w_k1
    (by decide) (by decide) (by decide) (by decide)

/-- C10: every failing `book_class` call returns the store unchanged: all
checks precede any mutation, so no slot count is decremented and no booking
row is inserted on any error path. -/
theorem C10_error_leaves_store_unchanged :
    ∀ (db : Store) (uid : Nat) (b : BookingCreate) (now : PyDatetime)
      (e : BookError),
      (book_class db uid b now).2 = Except.error e →
      (book_class db uid b now).1 = db := by
  intro db uid b now e h
  cases hfc : find_class db b.class_id with
  | none => rw [book_class_none hfc]
  | some k =>
    rw [book_class_some hfc] at h ⊢
    split_ifs at h ⊢ <;> rfl

/-- Witness for C10: a booking attempt against a missing class leaves the
empty store unchanged. -/
theorem C10_error_unchanged_witness :
    (book_class Store.empty 9 w_bookIn w_now).1 = Store.empty :=
  C10_error_leaves_store_unchanged Store.empty 9 w_bookIn w_now
    BookError.ClassNotFound rfl

/-- C1: in every reachable store slot counts are non-negative; a created
class starts with `available_slots` equal to the requested capacity; a
successful booking decrements the booked class's count by exactly 1;
`book_class` fails with `NoSlots` once the count is `≤ 0`; and no operation
ever increases any existing class's count (so it never exceeds the capacity
it was created with). -/
theorem C1_available_slots_spec :
    (∀ db : Store, Reachable db → ∀ k ∈ db.classes, 0 ≤ k.available_slots) ∧
    (∀ (db : Store) (c : ClassCreate) (now : PyDatetime) (db' : Store)
      (k : FitnessClass), create_class db c now = (db', Except.ok k) →
      k.available_slots = c.available_slots) ∧
    (∀ (db : Store) (uid : Nat) (b : BookingCreate) (now : PyDatetime)
      (db' : Store) (bk : Booking) (k : FitnessClass),
      book_class db uid b now = (db', Except.ok bk) →
      find_class db b.class_id = some k →
      find_class db' b.class_id =
        some { k with available_slots := k.available_slots - 1 }) ∧
    (∀ (db : Store) (uid : Nat) (b : BookingCreate) (now : PyDatetime)
      (k : FitnessClass), find_class db b.class_id = some k →
      ¬ instant (normalize_to_ist k.date_time) < instant now →
      k.available_slots ≤ 0 →
      book_class db uid b now = (db, Except.error BookError.NoSlots)) ∧
    (∀ (db : Store) (uid : Nat) (b : BookingCreate) (now : PyDatetime),
      ∀ k2 ∈ (book_class db uid b now).1.classes,
      ∃ k1 ∈ db.classes, k2.id = k1.id ∧
        k2.available_slots ≤ k1.available_slots) ∧
    (∀ (db : Store) (c : ClassCreate) (now : PyDatetime),
      ∀ k2 ∈ (create_class db c now).1.classes,
      k2 ∈ db.classes ∨
        (k2.id = db.nextClassId ∧
          k2.available_slots = c.available_slots)) := by
  refine ⟨?_, ?_, ?_, ?_, ?_, ?_⟩
  · intro db h
    exact (reachable_inv h).slots_nonneg
  · intro db c now db' k h
    unfold create_class at h
    dsimp only at h
    split_ifs at h with hpast
    · have := congrArg Prod.snd h
      simp at this
    · have := congrArg Prod.snd h
      simp only [Except.ok.injEq] at this
      rw [← this]
  · intro db uid b now db' bk k hbook hfc
    rw [book_class_some hfc] at hbook
    split_ifs at hbook with h1 h2 h3
    · have := congrArg Prod.snd hbook
      simp at this
    · have := congrArg Prod.snd hbook
      simp at this
    · have := congrArg Prod.snd hbook
      simp at this
    injection hbook with hdb hbk
    subst hdb
    unfold find_class
    dsimp only
    rw [List.find?_map]
    have hpred : ((fun k2 : FitnessClass => k2.id == b.class_id) ∘
        (fun k2 : FitnessClass =>
          if k2.id = k.id then
            { k2 with available_slots := k2.available_slots - 1 }
          else k2)) = (fun k2 : FitnessClass => k2.id == b.class_id) := by
      funext a
      by_cases hid : a.id = k.id <;> simp [Function.comp, hid]
    rw [hpred]
    have hfk : db.classes.find? (fun k2 => k2.id == b.class_id) = some k := hfc
    rw [hfk]
    simp
  · intro db uid b now k hfc hpast hslots
    rw [book_class_some hfc, if_neg hpast, if_pos hslots]
  · intro db uid b now k2 hk2
    cases hfc : find_class db b.class_id with
    | none =>
      rw [book_class_none hfc] at hk2
      exact ⟨k2, hk2, rfl, le_refl _⟩
    | some k =>
      rw [book_class_some hfc] at hk2
      split_ifs at hk2
      · exact ⟨k2, hk2, rfl, le_refl _⟩
      · exact ⟨k2, hk2, rfl, le_refl _⟩
      · exact ⟨k2, hk2, rfl, le_refl _⟩
      · dsimp only at hk2
        rcases List.mem_map.1 hk2 with ⟨k1, hk1, rfl⟩
        refine ⟨k1, hk1, ?_, ?_⟩
        · split <;> rfl
        · by_cases hid : k1.id = k.id
          · rw [if_pos hid]
            dsimp only
            omega
          · rw [if_neg hid]
  · intro db c now k2 hk2
    unfold create_class at hk2
    dsimp only at hk2
    split_ifs at hk2 with hpast
    · exact Or.inl hk2
    · dsimp only at hk2
      rcases List.mem_append.1 hk2 with hk | hk
      · exact Or.inl hk
      · have hk' : k2 = ⟨db.nextClassId, c.name, normalize_to_ist c.date_time,
            c.instructor, c.available_slots⟩ := by simpa using hk
        subst hk'
        exact Or.inr ⟨rfl, rfl⟩

/-- Witness for C1 on the fixture history: the booked Yoga class keeps a
non-negative count, was created at capacity 2, was decremented to 1 by the
booking, a full class rejects with `NoSlots`, and both operations only
lower or preserve existing counts. -/
theorem C1_available_slots_witness :
    0 ≤ w_k2.available_slots ∧
    w_k1.available_slots = w_classIn.available_slots ∧
    find_class w_s2 1 =
      some { w_k1 with available_slots := w_k1.available_slots - 1 } ∧
    book_class cex_s2 9 w_bookIn w_now =
      (cex_s2, Except.error BookError.NoSlots) ∧
    (∃ k1 ∈ w_s1.classes, w_k2.id = k1.id ∧
      w_k2.available_slots ≤ k1.available_slots) ∧
    (w_k1 ∈ Store.empty.classes ∨
      (w_k1.id = Store.empty.nextClassId ∧
        w_k1.available_slots = w_classIn.available_slots)) :=
  ⟨C1_available_slots_spec.1 w_s2 reach_w_s2 w_k2 (by decide),
   C1_available_slots_spec.2.1 Store.empty w_classIn w_now w_s1 w_k1 rfl,
   C1_available_slots_spec.2.2.1 w_s1 7 w_bookIn w_now w_s2 w_bk w_k1
     rfl (by decide),
   C1_available_slots_spec.2.2.2.1 cex_s2 9 w_bookIn w_now cex_k0
     (by decide) (by decide) (by decide),
   C1_available_slots_spec.2.2.2.2.1 w_s1 7 w_bookIn w_now w_k2 (by decide),
   C1_available_slots_spec.2.2.2.2.2 Store.empty w_classIn w_now w_k1
     (by decide)⟩

/-- Counterexample to C2 as stated: after user 7 successfully takes the
last slot of the capacity-1 Spin class, the same user's retry holds a
booking for the class, yet the second `book_class` call fails with
`NoSlots` — not `AlreadyBooked` — because the capacity check precedes the
duplicate check. -/
theorem C2_counterexample_full_class_retry :
    (book_class cex_s1 7 w_bookIn w_now).2 =
      Except.ok ⟨1, 7, 1, "Parth", "parth@example.com", w_now⟩ ∧
    find_booking cex_s2 7 1 ≠ none ∧
    (book_class cex_s2 7 w_bookIn w_now).2 = Except.error BookError.NoSlots ∧
    BookError.NoSlots ≠ BookError.AlreadyBooked :=
  ⟨rfl, by decide, rfl, by decide⟩

/-- C2 (amended): in every reachable store at most one booking row exists
per `(user_id, class_id)` pair; when the user already holds a booking for
the class, a second `book_class` call fails — with `AlreadyBooked` when the
class still has a slot free, or with `NoSlots` taking precedence when it is
full — and in every such case the store is unchanged: `available_slots` is
not decremented a second time and no second row is inserted. -/
theorem C2_unique_pair_amended :
    (∀ db : Store, Reachable db →
      (db.bookings.map (fun bb => (bb.user_id, bb.class_id))).Nodup) ∧
    (∀ (db : Store) (uid : Nat) (b : BookingCreate) (now : PyDatetime),
      (find_booking db uid b.class_id).isSome = true →
      (book_class db uid b now).1 = db ∧
        ∃ e, (book_class db uid b now).2 = Except.error e) ∧
    (∀ (db : Store) (uid : Nat) (b : BookingCreate) (now : PyDatetime)
      (k : FitnessClass), find_class db b.class_id = some k →
      ¬ instant (normalize_to_ist k.date_time) < instant now →
      0 < k.available_slots →
      (find_booking db uid b.class_id).isSome = true →
      book_class db uid b now = (db, Except.error BookError.AlreadyBooked)) := by
  refine ⟨?_, ?_, ?_⟩
  · intro db h
    exact (reachable_inv h).booking_pairs_nodup
  · intro db uid b now hdup
    cases hfc : find_class db b.class_id with
    | none =>
      rw [book_class_none hfc]
      exact ⟨rfl, BookError.ClassNotFound, rfl⟩
    | some k =>
      rw [book_class_some hfc]
      split_ifs with h1 h2
      · exact ⟨rfl, BookError.PastClass, rfl⟩
      · exact ⟨rfl, BookError.NoSlots, rfl⟩
      · exact ⟨rfl, BookError.AlreadyBooked, rfl⟩
  · intro db uid b now k hfc hpast hslots hdup
    rw [book_class_some hfc, if_neg hpast, if_neg (by omega), if_pos hdup]

/-- Witness for C2 (amended): the fixture store after one booking has
pairwise-distinct booking pairs, and user 7's retry against the Yoga class
(one slot still free) is rejected with `AlreadyBooked` and no change. -/
theorem C2_unique_pair_witness :
    (w_s2.bookings.map (fun bb => (bb.user_id, bb.class_id))).Nodup ∧
    ((book_class w_s2 7 w_bookIn w_now).1 = w_s2 ∧
      ∃ e, (book_class w_s2 7 w_bookIn w_now).2 = Except.error e) ∧
    book_class w_s2 7 w_bookIn w_now =
      (w_s2, Except.error BookError.AlreadyBooked) :=
  ⟨C2_unique_pair_amended.1 w_s2 reach_w_s2,
   C2_unique_pair_amended.2.1 w_s2 7 w_bookIn w_now (by decide),
   C2_unique_pair_amended.2.2 w_s2 7 w_bookIn w_now w_k2
     (by decide) (by decide) (by decide) (by decide)⟩

/-- C5 fails on the code: the bookings router declares `POST /book` (201)
and `GET /bookings` (200), and the handler maps `ClassNotFound` to 404,
`PastClass` to 400, and `NoSlots`/`AlreadyBooked` to 409 — but app/main.py
registers only the health, auth, and classes routes, so no registered
route exposes `/book` or `/bookings`. -/
theorem C5_bookings_router_not_registered :
    bookings_router_routes.map Route.path = ["/book", "/bookings"] ∧
    bookings_router_routes.map Route.success_status = [201, 200] ∧
    app_routes.all (fun r => decide (r.path ≠ "/book") &&
      decide (r.path ≠ "/bookings")) = true ∧
    BookError.statusCode BookError.ClassNotFound = 404 ∧
    BookError.statusCode BookError.PastClass = 400 ∧
    BookError.statusCode BookError.NoSlots = 409 ∧
    BookError.statusCode BookError.AlreadyBooked = 409 :=
  ⟨rfl, rfl, by decide, rfl, rfl, rfl, rfl⟩

/-- C9: `create_class` normalizes the scheduled time; when it is past the
call fails with `PastSchedule` and the store is unchanged, otherwise
exactly one new class row is appended with `available_slots` equal to the
requested capacity; schema validation bounds the capacity to `[1, 100]`. -/
theorem C9_create_class_spec :
    (∀ (db : Store) (c : ClassCreate) (now : PyDatetime),
      is_past_in_ist (normalize_to_ist c.date_time) now = true →
      create_class db c now = (db, Except.error ClassError.PastSchedule)) ∧
    (∀ (db : Store) (c : ClassCreate) (now : PyDatetime),
      is_past_in_ist (normalize_to_ist c.date_time) now = false →
      create_class db c now =
        ({ db with
            classes := db.classes ++
              [⟨db.nextClassId, c.name, normalize_to_ist c.date_time,
                c.instructor, c.available_slots⟩]
            nextClassId := db.nextClassId + 1 },
         Except.ok ⟨db.nextClassId, c.name, normalize_to_ist c.date_time,
            c.instructor, c.available_slots⟩)) ∧
    (∀ c : ClassCreate, c.valid = true →
      1 ≤ c.available_slots ∧ c.available_slots ≤ 100) := by
  refine ⟨?_, ?_, ?_⟩
  · intro db c now h
    unfold create_class
    dsimp only
    rw [h]
    rfl
  · intro db c now h
    unfold create_class
    dsimp only
    rw [h]
    rfl
  · intro c h
    exact ClassCreate.valid_bounds h

/-- Witness for C9: a yesterday-style past time is rejected leaving the
store empty, the Yoga class is persisted at its requested capacity, and
the fixture body's capacity lies in `[1, 100]`. -/
theorem C9_create_class_witness :
    create_class Store.empty ⟨"Old", ⟨0, none⟩, "Zed", 5⟩ w_now =
      (Store.empty, Except.error ClassError.PastSchedule) ∧
    create_class Store.empty w_classIn w_now =
      ({ Store.empty with
          classes := Store.empty.classes ++
            [⟨Store.empty.nextClassId, w_classIn.name,
              normalize_to_ist w_classIn.date_time, w_classIn.instructor,
              w_classIn.available_slots⟩]
          nextClassId := Store.empty.nextClassId + 1 },
       Except.ok ⟨Store.empty.nextClassId, w_classIn.name,
          normalize_to_ist w_classIn.date_time, w_classIn.instructor,
          w_classIn.available_slots⟩) ∧
    (1 ≤ w_classIn.available_slots ∧ w_classIn.available_slots ≤ 100) :=
  ⟨C9_create_class_spec.1 Store.empty ⟨"Old", ⟨0, none⟩, "Zed", 5⟩ w_now
     (by decide),
   C9_create_class_spec.2.1 Store.empty w_classIn w_now (by decide),
   C9_create_class_spec.2.2 w_classIn (by decide)⟩

end FitnessStudio
